import Mathlib

/-!
Verification of the cart and wishlist collection logic of
`products/static/products/js/products.js` (classes `DokanCart` and
`DokanWishlist`), shallowly embedded in Lean.

Modelling conventions:
* JavaScript numbers are modelled exactly: prices as `ℚ`, quantities as `ℤ`
  (the code never rounds quantities, and the concrete prices of the spec
  scenario round-trip exactly through IEEE doubles).
* `localStorage` is modelled per key as `Option Json`, where `Json` is an
  abstract-syntax model of the JSON value produced by `JSON.stringify` and
  consumed by `JSON.parse`; the text rendering between the two is faithful
  and is elided.
* `new Date().toISOString()` is an opaque timestamp string passed in as the
  `now` argument.
* In-place mutation of the object returned by `Array.prototype.find` becomes
  a first-match functional update of the list.
-/

/-- A cart row, mirroring the object literal pushed in `DokanCart.addToCart`. -/
structure LineItem where
  productId : String
  productName : String
  price : ℚ
  quantity : ℤ
  image : String
  addedAt : String
deriving Repr, DecidableEq

/-- A wishlist row, mirroring the object literal pushed in
`DokanWishlist.addToWishlist` (no quantity field). -/
structure WishlistEntry where
  productId : String
  productName : String
  price : ℚ
  image : String
  addedAt : String
deriving Repr, DecidableEq

/-- Abstract syntax of the JSON values exchanged with `localStorage`. -/
inductive Json where
  | str : String → Json
  | num : ℚ → Json
  | arr : List Json → Json
  | obj : List (String × Json) → Json
deriving Repr

/-- Mirrors `JSON.stringify` of one cart row. -/
def encodeLineItem (i : LineItem) : Json :=
  .obj [("productId", .str i.productId), ("productName", .str i.productName),
        ("price", .num i.price), ("quantity", .num (i.quantity : ℚ)),
        ("image", .str i.image), ("addedAt", .str i.addedAt)]

/-- Mirrors `JSON.parse` of one cart row (inverse of `encodeLineItem`). -/
def decodeLineItem : Json → Option LineItem
  | .obj [("productId", .str pid), ("productName", .str name), ("price", .num p),
          ("quantity", .num q), ("image", .str img), ("addedAt", .str t)] =>
      if q.den = 1 then some ⟨pid, name, p, q.num, img, t⟩ else none
  | _ => none

/-- Mirrors `JSON.stringify` of one wishlist row. -/
def encodeWishlistEntry (e : WishlistEntry) : Json :=
  .obj [("productId", .str e.productId), ("productName", .str e.productName),
        ("price", .num e.price), ("image", .str e.image),
        ("addedAt", .str e.addedAt)]

/-- Mirrors `JSON.parse` of one wishlist row (inverse of `encodeWishlistEntry`). -/
def decodeWishlistEntry : Json → Option WishlistEntry
  | .obj [("productId", .str pid), ("productName", .str name), ("price", .num p),
          ("image", .str img), ("addedAt", .str t)] =>
      some ⟨pid, name, p, img, t⟩
  | _ => none

/-- Mirrors `JSON.parse` of an array of cart rows. -/
def decodeLineItems : List Json → Option (List LineItem)
  | [] => some []
  | j :: js =>
      match decodeLineItem j, decodeLineItems js with
      | some i, some rest => some (i :: rest)
      | _, _ => none

/-- Mirrors `JSON.parse` of an array of wishlist rows. -/
def decodeWishlistEntries : List Json → Option (List WishlistEntry)
  | [] => some []
  | j :: js =>
      match decodeWishlistEntry j, decodeWishlistEntries js with
      | some e, some rest => some (e :: rest)
      | _, _ => none

/-- The state of a `DokanCart` instance: the in-memory `this.items` array and
the `dokan_cart` slot of `localStorage`. -/
structure CartState where
  items : List LineItem
  storage : Option Json
deriving Repr

/-- The state of a `DokanWishlist` instance: `this.items` and the
`dokan_wishlist` slot of `localStorage`. -/
structure WishlistState where
  items : List WishlistEntry
  storage : Option Json
deriving Repr

/-- Mirrors `this.items.find(item => item.productId === productId)`. -/
def cartFind (items : List LineItem) (productId : String) : Option LineItem :=
  items.find? (fun item => item.productId == productId)

/-- Mirrors `this.items.find(item => item.productId === productId)` for the wishlist. -/
def wishFind (items : List WishlistEntry) (productId : String) :
    Option WishlistEntry :=
  items.find? (fun item => item.productId == productId)

/-- Mirrors `DokanCart.saveCart`: `localStorage.setItem(this.key, JSON.stringify(this.items))`. -/
def saveCart (s : CartState) : CartState :=
  { s with storage := some (Json.arr (s.items.map encodeLineItem)) }

/-- Mirrors `DokanCart.loadCart`: `this.items = cart ? JSON.parse(cart) : []`.
`none` means the blob does not parse back into a list of rows. -/
def loadCart (storage : Option Json) : Option (List LineItem) :=
  match storage with
  | none => some []
  | some (Json.arr js) => decodeLineItems js
  | some _ => none

/-- Mirrors `DokanWishlist.saveWishlist`. -/
def saveWishlist (s : WishlistState) : WishlistState :=
  { s with storage := some (Json.arr (s.items.map encodeWishlistEntry)) }

/-- Mirrors `DokanWishlist.loadWishlist`. -/
def loadWishlist (storage : Option Json) : Option (List WishlistEntry) :=
  match storage with
  | none => some []
  | some (Json.arr js) => decodeWishlistEntries js
  | some _ => none

/-- Mirrors `existingItem.quantity += quantity`: in-place update of the first item
the `find` call returned. -/
def bumpQuantity : List LineItem → String → ℤ → List LineItem
  | [], _, _ => []
  | item :: rest, productId, quantity =>
    if item.productId == productId then
      { item with quantity := item.quantity + quantity } :: rest
    else
      item :: bumpQuantity rest productId quantity

/-- Mirrors `item.quantity = quantity`: in-place update of the first item the `find`
call in `updateQuantity` returned. -/
def setQuantityFirst : List LineItem → String → ℤ → List LineItem
  | [], _, _ => []
  | item :: rest, productId, quantity =>
    if item.productId == productId then
      { item with quantity := quantity } :: rest
    else
      item :: setQuantityFirst rest productId quantity

/-- Mirrors `DokanCart.addToCart(productId, productName, price, quantity = 1, image = '')`;
`now` stands for `new Date().toISOString()`. -/
def addToCart (s : CartState) (productId productName : String) (price : ℚ)
    (quantity : ℤ) (image : String) (now : String) : CartState :=
  match cartFind s.items productId with
  | some _ =>
      saveCart { s with items := bumpQuantity s.items productId quantity }
  | none =>
      saveCart { s with items := s.items ++
        [{ productId := productId, productName := productName, price := price,
           quantity := quantity, image := image, addedAt := now }] }

/-- Mirrors `DokanCart.removeFromCart(productId)`. -/
def removeFromCart (s : CartState) (productId : String) : CartState :=
  saveCart { s with items := s.items.filter (fun item => item.productId != productId) }

/-- Mirrors `DokanCart.updateQuantity(productId, quantity)`: the quantity is written
first, then `item.quantity <= 0` decides between removal and save; a missing
`productId` leaves both memory and storage untouched. -/
def updateQuantity (s : CartState) (productId : String) (quantity : ℤ) :
    CartState :=
  match cartFind s.items productId with
  | some _ =>
      let s1 : CartState :=
        { s with items := setQuantityFirst s.items productId quantity }
      if quantity ≤ 0 then removeFromCart s1 productId else saveCart s1
  | none => s

/-- Mirrors `DokanCart.getTotalItems()`: `reduce((total, item) => total + item.quantity, 0)`. -/
def getTotalItems (s : CartState) : ℤ :=
  s.items.foldl (fun total item => total + item.quantity) 0

/-- Mirrors `DokanCart.getSubtotal()`: `reduce((total, item) => total + item.price * item.quantity, 0)`. -/
def getSubtotal (s : CartState) : ℚ :=
  s.items.foldl (fun total item => total + item.price * (item.quantity : ℚ)) 0

/-- Mirrors `DokanCart.clearCart()`. -/
def clearCart (s : CartState) : CartState :=
  saveCart { s with items := [] }

/-- A freshly constructed cart on an absent `dokan_cart` key. -/
def cartEmpty : CartState := { items := [], storage := none }

/-- A freshly constructed wishlist on an absent `dokan_wishlist` key. -/
def wishlistEmpty : WishlistState := { items := [], storage := none }

/-- Mirrors `DokanWishlist.addToWishlist(productId, productName, price, image = '')`:
returns the `true`/`false` result together with the new state. -/
def addToWishlist (s : WishlistState) (productId productName : String)
    (price : ℚ) (image now : String) : Bool × WishlistState :=
  match wishFind s.items productId with
  | some _ => (false, s)
  | none =>
      (true, saveWishlist { s with items := s.items ++
        [{ productId := productId, productName := productName, price := price,
           image := image, addedAt := now }] })

/-- Mirrors `DokanWishlist.removeFromWishlist(productId)`. -/
def removeFromWishlist (s : WishlistState) (productId : String) : WishlistState :=
  saveWishlist { s with items := s.items.filter (fun e => e.productId != productId) }

/-- Mirrors `DokanWishlist.getTotalItems()`: `this.items.length`. -/
def wishlistTotalItems (s : WishlistState) : ℕ :=
  s.items.length

/-- Mirrors `DokanWishlist.isInWishlist(productId)`. -/
def isInWishlist (s : WishlistState) (productId : String) : Bool :=
  s.items.any (fun e => e.productId == productId)

/-- At most one row per `productId` (the collection invariant of the spec). -/
def uniqueIds (items : List LineItem) : Prop :=
  (items.map (fun i => i.productId)).Nodup

/-- Every present row has quantity at least 1 (the quantity invariant of the spec). -/
def quantitiesPos (items : List LineItem) : Prop :=
  ∀ i ∈ items, 1 ≤ i.quantity

/-! ### Helper lemmas shared by the claim theorems -/

lemma cartFind_none_iff (items : List LineItem) (pid : String) :
    cartFind items pid = none ↔ ∀ i ∈ items, ¬ i.productId = pid := by
  simp [cartFind, List.find?_eq_none]

lemma bumpQuantity_decomp (pid : String) (q : ℤ) :
    ∀ (items : List LineItem) (i : LineItem), cartFind items pid = some i →
      ∃ l1 l2, items = l1 ++ i :: l2 ∧ (∀ j ∈ l1, ¬ j.productId = pid) ∧
        bumpQuantity items pid q =
          l1 ++ { i with quantity := i.quantity + q } :: l2 := by
  intro items
  induction items with
  | nil => intro i h; simp [cartFind] at h
  | cons a rest ih =>
      intro i h
      by_cases ha : a.productId = pid
      · simp [cartFind, List.find?_cons_of_pos, ha] at h
        subst h
        exact ⟨[], rest, by simp, by simp, by simp [bumpQuantity, ha]⟩
      · have h' : cartFind rest pid = some i := by
          simpa [cartFind, List.find?_cons_of_neg, ha] using h
        obtain ⟨l1, l2, hdecomp, hl1, hbump⟩ := ih i h'
        exact ⟨a :: l1, l2, by simp [hdecomp], by simpa [ha] using hl1,
          by simp [bumpQuantity, ha, hbump]⟩

lemma setQuantityFirst_filter (pid : String) (q : ℤ) :
    ∀ items : List LineItem,
      (setQuantityFirst items pid q).filter (fun i => i.productId != pid) =
        items.filter (fun i => i.productId != pid) := by
  intro items
  induction items with
  | nil => rfl
  | cons a rest ih =>
      by_cases ha : a.productId = pid
      · simp [setQuantityFirst, ha, List.filter_cons, ih]
      · simp [setQuantityFirst, ha, List.filter_cons, ih]

lemma bumpQuantity_map_productId (pid : String) (q : ℤ) :
    ∀ items : List LineItem,
      (bumpQuantity items pid q).map (fun i => i.productId) =
        items.map (fun i => i.productId) := by
  intro items
  induction items with
  | nil => rfl
  | cons a rest ih =>
      by_cases ha : a.productId = pid
      · simp [bumpQuantity, ha]
      · simp [bumpQuantity, ha, ih]

lemma setQuantityFirst_map_productId (pid : String) (q : ℤ) :
    ∀ items : List LineItem,
      (setQuantityFirst items pid q).map (fun i => i.productId) =
        items.map (fun i => i.productId) := by
  intro items
  induction items with
  | nil => rfl
  | cons a rest ih =>
      by_cases ha : a.productId = pid
      · simp [setQuantityFirst, ha]
      · simp [setQuantityFirst, ha, ih]

lemma foldl_add_map {M : Type} [AddCommMonoid M] {α : Type} (f : α → M) :
    ∀ (l : List α) (a : M),
      l.foldl (fun t i => t + f i) a = a + (l.map f).sum := by
  intro l
  induction l with
  | nil => intro a; simp
  | cons x xs ih =>
      intro a
      simp [List.foldl_cons, ih, add_assoc]

lemma decodeLineItem_encodeLineItem (i : LineItem) :
    decodeLineItem (encodeLineItem i) = some i := by
  simp [encodeLineItem, decodeLineItem]

lemma decodeLineItems_encode (l : List LineItem) :
    decodeLineItems (l.map encodeLineItem) = some l := by
  induction l with
  | nil => rfl
  | cons i rest ih => simp [decodeLineItems, decodeLineItem_encodeLineItem, ih]

lemma decodeWishlistEntry_encodeWishlistEntry (e : WishlistEntry) :
    decodeWishlistEntry (encodeWishlistEntry e) = some e := by
  simp [encodeWishlistEntry, decodeWishlistEntry]

lemma decodeWishlistEntries_encode (l : List WishlistEntry) :
    decodeWishlistEntries (l.map encodeWishlistEntry) = some l := by
  induction l with
  | nil => rfl
  | cons e rest ih =>
      simp [decodeWishlistEntries, decodeWishlistEntry_encodeWishlistEntry, ih]

lemma quantitiesPos_bumpQuantity (pid : String) (q : ℤ) (hq : 1 ≤ q) :
    ∀ items : List LineItem, quantitiesPos items →
      quantitiesPos (bumpQuantity items pid q) := by
  intro items
  induction items with
  | nil => intro _; simp [bumpQuantity, quantitiesPos]
  | cons a rest ih =>
      intro h
      have ha : 1 ≤ a.quantity := h a (by simp)
      have hrest : quantitiesPos rest := fun i hi => h i (by simp [hi])
      by_cases hp : a.productId = pid
      · intro i hi
        simp [bumpQuantity, hp] at hi
        rcases hi with hi | hi
        · subst hi; simp; omega
        · exact hrest i hi
      · intro i hi
        simp [bumpQuantity, hp] at hi
        rcases hi with hi | hi
        · subst hi; exact ha
        · exact ih hrest i hi

lemma quantitiesPos_setQuantityFirst (pid : String) (q : ℤ) (hq : 1 ≤ q) :
    ∀ items : List LineItem, quantitiesPos items →
      quantitiesPos (setQuantityFirst items pid q) := by
  intro items
  induction items with
  | nil => intro _; simp [setQuantityFirst, quantitiesPos]
  | cons a rest ih =>
      intro h
      have ha : 1 ≤ a.quantity := h a (by simp)
      have hrest : quantitiesPos rest := fun i hi => h i (by simp [hi])
      by_cases hp : a.productId = pid
      · intro i hi
        simp [setQuantityFirst, hp] at hi
        rcases hi with hi | hi
        · subst hi; exact hq
        · exact hrest i hi
      · intro i hi
        simp [setQuantityFirst, hp] at hi
        rcases hi with hi | hi
        · subst hi; exact ha
        · exact ih hrest i hi

lemma cartFind_setQuantityFirst (pid : String) (q : ℤ) :
    ∀ items : List LineItem,
      cartFind (setQuantityFirst items pid q) pid =
        (cartFind items pid).map (fun i => { i with quantity := q }) := by
  intro items
  induction items with
  | nil => rfl
  | cons a rest ih =>
      by_cases ha : a.productId = pid
      · simp [setQuantityFirst, ha, cartFind, List.find?_cons_of_pos]
      · have hb : (a.productId == pid) = false := by simp [ha]
        simp only [setQuantityFirst, hb, Bool.false_eq_true, if_false]
        simp only [cartFind] at ih ⊢
        rw [List.find?_cons_of_neg _ (by simp [ha]),
          List.find?_cons_of_neg _ (by simp [ha]), ih]

lemma cartFind_bumpQuantity (pid : String) (q : ℤ) :
    ∀ items : List LineItem,
      cartFind (bumpQuantity items pid q) pid =
        (cartFind items pid).map
          (fun i => { i with quantity := i.quantity + q }) := by
  intro items
  induction items with
  | nil => rfl
  | cons a rest ih =>
      by_cases ha : a.productId = pid
      · simp [bumpQuantity, ha, cartFind, List.find?_cons_of_pos]
      · have hb : (a.productId == pid) = false := by simp [ha]
        simp only [bumpQuantity, hb, Bool.false_eq_true, if_false]
        simp only [cartFind] at ih ⊢
        rw [List.find?_cons_of_neg _ (by simp [ha]),
          List.find?_cons_of_neg _ (by simp [ha]), ih]

lemma bumpQuantity_length (pid : String) (q : ℤ) (items : List LineItem) :
    (bumpQuantity items pid q).length = items.length := by
  have h := bumpQuantity_map_productId pid q items
  have := congrArg List.length h
  simpa using this

lemma bumpQuantity_append_no_match (pid : String) (q : ℤ) :
    ∀ (l l2 : List LineItem), (∀ j ∈ l, ¬ j.productId = pid) →
      bumpQuantity (l ++ l2) pid q = l ++ bumpQuantity l2 pid q := by
  intro l
  induction l with
  | nil => intro l2 _; simp
  | cons a rest ih =>
      intro l2 h
      have ha : ¬ a.productId = pid := h a (by simp)
      have hrest : ∀ j ∈ rest, ¬ j.productId = pid := fun j hj => h j (by simp [hj])
      simp [bumpQuantity, ha, ih l2 hrest]

lemma cartFind_append_of_none (pid : String) {l l2 : List LineItem}
    (h : cartFind l pid = none) :
    cartFind (l ++ l2) pid = cartFind l2 pid := by
  simp only [cartFind] at h ⊢
  rw [List.find?_append, h, Option.none_or]

lemma addToCart_items_found {s : CartState} {pid : String} {i : LineItem}
    (h : cartFind s.items pid = some i) (n : String) (p : ℚ) (q : ℤ)
    (img t : String) :
    (addToCart s pid n p q img t).items = bumpQuantity s.items pid q := by
  simp [addToCart, h, saveCart]

lemma addToCart_items_absent {s : CartState} {pid : String}
    (h : cartFind s.items pid = none) (n : String) (p : ℚ) (q : ℤ)
    (img t : String) :
    (addToCart s pid n p q img t).items = s.items ++ [⟨pid, n, p, q, img, t⟩] := by
  simp [addToCart, h, saveCart]

/-! ### Claim theorems -/

/-- C1: calling cart `add` twice for the same, initially absent, `productId`
with quantities q1 and q2 leaves exactly one LineItem for that id, whose
quantity is q1 + q2; more generally `add` on a present id replaces the first
matching item by that item with its quantity incremented by the argument
(leaving the item count unchanged), and `add` on an absent id appends a
fresh LineItem. -/
theorem addToCart_merges_duplicates (s : CartState) (pid n1 n2 : String)
    (p1 p2 : ℚ) (q1 q2 : ℤ) (img1 img2 t1 t2 : String) :
    (cartFind s.items pid = none →
      ((addToCart (addToCart s pid n1 p1 q1 img1 t1) pid n2 p2 q2 img2 t2).items.filter
          (fun i => i.productId == pid)).length = 1 ∧
      ∀ i ∈ (addToCart (addToCart s pid n1 p1 q1 img1 t1) pid n2 p2 q2 img2 t2).items,
        i.productId = pid → i.quantity = q1 + q2) ∧
    (∀ i, cartFind s.items pid = some i →
      cartFind (addToCart s pid n1 p1 q1 img1 t1).items pid =
        some { i with quantity := i.quantity + q1 } ∧
      (addToCart s pid n1 p1 q1 img1 t1).items.length = s.items.length) ∧
    (cartFind s.items pid = none →
      (addToCart s pid n1 p1 q1 img1 t1).items =
        s.items ++ [⟨pid, n1, p1, q1, img1, t1⟩]) := by
  refine ⟨?_, ?_, fun h => addToCart_items_absent h n1 p1 q1 img1 t1⟩
  · intro h
    have hall : ∀ j ∈ s.items, ¬ j.productId = pid :=
      (cartFind_none_iff s.items pid).mp h
    have h1 : (addToCart s pid n1 p1 q1 img1 t1).items =
        s.items ++ [⟨pid, n1, p1, q1, img1, t1⟩] :=
      addToCart_items_absent h n1 p1 q1 img1 t1
    have hfind1 : cartFind (addToCart s pid n1 p1 q1 img1 t1).items pid =
        some ⟨pid, n1, p1, q1, img1, t1⟩ := by
      rw [h1, cartFind_append_of_none pid h]
      simp [cartFind]
    have h2 : (addToCart (addToCart s pid n1 p1 q1 img1 t1) pid n2 p2 q2 img2 t2).items =
        s.items ++ [⟨pid, n1, p1, q1 + q2, img1, t1⟩] := by
      rw [addToCart_items_found hfind1 n2 p2 q2 img2 t2, h1,
        bumpQuantity_append_no_match pid q2 s.items _ hall]
      simp [bumpQuantity]
    constructor
    · rw [h2]
      rw [List.filter_append]
      have hnil : s.items.filter (fun i => i.productId == pid) = [] := by
        rw [List.filter_eq_nil_iff]
        intro a ha
        simpa using hall a ha
      simp [hnil]
    · intro i hi hipid
      rw [h2] at hi
      rcases List.mem_append.mp hi with hi | hi
      · exact absurd hipid (hall i hi)
      · simp at hi
        subst hi
        rfl
  · intro i h
    constructor
    · rw [addToCart_items_found h n1 p1 q1 img1 t1, cartFind_bumpQuantity, h]
      rfl
    · rw [addToCart_items_found h n1 p1 q1 img1 t1]
      exact bumpQuantity_length pid q1 s.items

/-- Witness for C1 at concrete inputs: two adds of product `p1` with
quantities 2 and 5 on an empty cart merge into one row of quantity 7, and an
add on a one-row cart bumps that row from 2 to 7 without changing the count. -/
theorem addToCart_merges_duplicates_witness :
    (((addToCart (addToCart cartEmpty "p1" "A" 1 2 "" "t1") "p1" "B" 2 5 "" "t2").items.filter
        (fun i => i.productId == "p1")).length = 1 ∧
      ∀ i ∈ (addToCart (addToCart cartEmpty "p1" "A" 1 2 "" "t1") "p1" "B" 2 5 "" "t2").items,
        i.productId = "p1" → i.quantity = 2 + 5) ∧
    (cartFind (addToCart (addToCart cartEmpty "p1" "A" 1 2 "" "t1") "p1" "B" 2 5 "" "t2").items "p1" =
        some ⟨"p1", "A", 1, 2 + 5, "", "t1"⟩ ∧
      (addToCart (addToCart cartEmpty "p1" "A" 1 2 "" "t1") "p1" "B" 2 5 "" "t2").items.length =
        (addToCart cartEmpty "p1" "A" 1 2 "" "t1").items.length) := by
  have h1 := (addToCart_merges_duplicates cartEmpty "p1" "A" "B" 1 2 2 5 "" "" "t1" "t2").1
    (by decide)
  have h2 := (addToCart_merges_duplicates
      (addToCart cartEmpty "p1" "A" 1 2 "" "t1") "p1" "B" "B" 2 2 5 5 "" "" "t2" "t2").2.1
    ⟨"p1", "A", 1, 2, "", "t1"⟩ (by decide)
  exact ⟨h1, h2⟩


lemma removeFromCart_items (s : CartState) (pid : String) :
    (removeFromCart s pid).items =
      s.items.filter (fun item => item.productId != pid) := rfl

lemma updateQuantity_found_nonpos {s : CartState} {pid : String} {i : LineItem}
    (h : cartFind s.items pid = some i) {q : ℤ} (hq : q ≤ 0) :
    updateQuantity s pid q =
      removeFromCart { s with items := setQuantityFirst s.items pid q } pid := by
  simp [updateQuantity, h, hq]

lemma updateQuantity_found_pos {s : CartState} {pid : String} {i : LineItem}
    (h : cartFind s.items pid = some i) {q : ℤ} (hq : ¬ q ≤ 0) :
    updateQuantity s pid q =
      saveCart { s with items := setQuantityFirst s.items pid q } := by
  simp [updateQuantity, h, hq]

lemma updateQuantity_of_absent {s : CartState} {pid : String}
    (h : cartFind s.items pid = none) (q : ℤ) :
    updateQuantity s pid q = s := by
  simp [updateQuantity, h]

lemma mem_setQuantityFirst (pid : String) (q : ℤ) :
    ∀ (items : List LineItem) (j : LineItem),
      j ∈ setQuantityFirst items pid q → j ∈ items ∨ j.productId = pid := by
  intro items
  induction items with
  | nil => intro j hj; simp [setQuantityFirst] at hj
  | cons a rest ih =>
      intro j hj
      by_cases ha : a.productId = pid
      · simp [setQuantityFirst, ha] at hj
        rcases hj with hj | hj
        · right
          subst hj
          simp [ha]
        · left
          simp [hj]
      · simp [setQuantityFirst, ha] at hj
        rcases hj with hj | hj
        · left
          simp [hj]
        · rcases ih j hj with h | h
          · left
            simp [h]
          · right
            exact h

lemma uniqueIds_of_sublist {l1 l2 : List LineItem}
    (hsub : List.Sublist l1 l2) (h : uniqueIds l2) : uniqueIds l1 :=
  List.Nodup.sublist (hsub.map (fun i => i.productId)) h

/-- C2 counterexample: a single `addToCart` call with quantity 0, applied to
the empty cart, persists a row whose quantity is 0, so the quantity part of
the invariant is not preserved by every cart operation. -/
theorem cart_invariant_counterexample :
    ∃ i ∈ (addToCart cartEmpty "p1" "Widget" 1 0 "" "t0").items,
      ¬ 1 ≤ i.quantity := by
  exact ⟨⟨"p1", "Widget", 1, 0, "", "t0"⟩, by decide, by decide⟩

/-- C2 amended: at most one LineItem per `productId` is preserved by every
cart operation unconditionally; quantity at least 1 is preserved by
`removeFromCart`, `updateQuantity` and `clearCart` unconditionally, and by
`addToCart` only when the quantity argument is at least 1 (the code enforces
no lower bound on that argument). -/
theorem cart_invariant_amended (s : CartState) (pid n : String) (p : ℚ)
    (q : ℤ) (img t : String) :
    (uniqueIds s.items →
      uniqueIds (addToCart s pid n p q img t).items ∧
      uniqueIds (removeFromCart s pid).items ∧
      uniqueIds (updateQuantity s pid q).items ∧
      uniqueIds (clearCart s).items) ∧
    (quantitiesPos s.items →
      (1 ≤ q → quantitiesPos (addToCart s pid n p q img t).items) ∧
      quantitiesPos (removeFromCart s pid).items ∧
      quantitiesPos (updateQuantity s pid q).items ∧
      quantitiesPos (clearCart s).items) := by
  constructor
  · intro hu
    refine ⟨?_, ?_, ?_, by simp [clearCart, saveCart, uniqueIds]⟩
    · cases hfind : cartFind s.items pid with
      | some i =>
          rw [addToCart_items_found hfind n p q img t]
          unfold uniqueIds
          rw [bumpQuantity_map_productId]
          exact hu
      | none =>
          rw [addToCart_items_absent hfind n p q img t]
          have hall : ∀ j ∈ s.items, ¬ j.productId = pid :=
            (cartFind_none_iff s.items pid).mp hfind
          unfold uniqueIds
          rw [List.map_append, List.nodup_append]
          refine ⟨hu, by simp, ?_⟩
          intro a ha hmem
          simp at hmem
          rcases List.mem_map.mp ha with ⟨j, hj, rfl⟩
          exact hall j hj hmem
    · rw [removeFromCart_items]
      exact uniqueIds_of_sublist (List.filter_sublist s.items) hu
    · cases hfind : cartFind s.items pid with
      | some i =>
          by_cases hq : q ≤ 0
          · rw [updateQuantity_found_nonpos hfind hq, removeFromCart_items]
            refine uniqueIds_of_sublist (List.filter_sublist _) ?_
            unfold uniqueIds
            rw [setQuantityFirst_map_productId]
            exact hu
          · rw [updateQuantity_found_pos hfind hq]
            show uniqueIds (setQuantityFirst s.items pid q)
            unfold uniqueIds
            rw [setQuantityFirst_map_productId]
            exact hu
      | none =>
          rw [updateQuantity_of_absent hfind q]
          exact hu
  · intro hp
    refine ⟨?_, ?_, ?_, by simp [clearCart, saveCart, quantitiesPos]⟩
    · intro hq
      cases hfind : cartFind s.items pid with
      | some i =>
          rw [addToCart_items_found hfind n p q img t]
          exact quantitiesPos_bumpQuantity pid q hq s.items hp
      | none =>
          rw [addToCart_items_absent hfind n p q img t]
          intro j hj
          rcases List.mem_append.mp hj with hj | hj
          · exact hp j hj
          · simp at hj
            rw [hj]
            exact hq
    · rw [removeFromCart_items]
      intro j hj
      exact hp j (List.mem_of_mem_filter hj)
    · cases hfind : cartFind s.items pid with
      | some i =>
          by_cases hq : q ≤ 0
          · rw [updateQuantity_found_nonpos hfind hq, removeFromCart_items]
            intro j hj
            have hj' := List.mem_filter.mp hj
            have hne : ¬ j.productId = pid := by
              have := hj'.2
              simpa using this
            rcases mem_setQuantityFirst pid q s.items j hj'.1 with h | h
            · exact hp j h
            · exact absurd h hne
          · rw [updateQuantity_found_pos hfind hq]
            have hq1 : 1 ≤ q := by omega
            exact quantitiesPos_setQuantityFirst pid q hq1 s.items hp
      | none =>
          rw [updateQuantity_of_absent hfind q]
          exact hp

/-- Witness for the amended C2, applied on the empty cart with quantity 2,
discharging both invariant hypotheses concretely. -/
theorem cart_invariant_amended_witness :
    (uniqueIds (addToCart cartEmpty "p1" "A" 1 2 "" "t").items ∧
      uniqueIds (removeFromCart cartEmpty "p1").items ∧
      uniqueIds (updateQuantity cartEmpty "p1" 2).items ∧
      uniqueIds (clearCart cartEmpty).items) ∧
    ((1 ≤ (2 : ℤ) → quantitiesPos (addToCart cartEmpty "p1" "A" 1 2 "" "t").items) ∧
      quantitiesPos (removeFromCart cartEmpty "p1").items ∧
      quantitiesPos (updateQuantity cartEmpty "p1" 2).items ∧
      quantitiesPos (clearCart cartEmpty).items) :=
  ⟨(cart_invariant_amended cartEmpty "p1" "A" 1 2 "" "t").1
      (by simp [uniqueIds, cartEmpty]),
    (cart_invariant_amended cartEmpty "p1" "A" 1 2 "" "t").2
      (by simp [quantitiesPos, cartEmpty])⟩

lemma addToWishlist_found {s : WishlistState} {pid : String} {e : WishlistEntry}
    (h : wishFind s.items pid = some e) (n : String) (p : ℚ) (img t : String) :
    addToWishlist s pid n p img t = (false, s) := by
  simp [addToWishlist, h]

lemma addToWishlist_absent {s : WishlistState} {pid : String}
    (h : wishFind s.items pid = none) (n : String) (p : ℚ) (img t : String) :
    addToWishlist s pid n p img t =
      (true, saveWishlist { s with items := s.items ++ [⟨pid, n, p, img, t⟩] }) := by
  simp [addToWishlist, h]

lemma wishFind_append_of_none (pid : String) {l l2 : List WishlistEntry}
    (h : wishFind l pid = none) :
    wishFind (l ++ l2) pid = wishFind l2 pid := by
  simp only [wishFind] at h ⊢
  rw [List.find?_append, h, Option.none_or]

/-- C3: wishlist `add` returns true exactly when no entry with the id exists,
in which case it appends the new entry and persists; on a present id it
returns false and leaves the state untouched, so a second add of the same id
returns false and leaves the item sequence of the first add unchanged. -/
theorem addToWishlist_spec (s : WishlistState) (pid n n2 : String) (p p2 : ℚ)
    (img img2 t t2 : String) :
    ((addToWishlist s pid n p img t).1 = true ↔ wishFind s.items pid = none) ∧
    (wishFind s.items pid ≠ none →
      addToWishlist s pid n p img t = (false, s)) ∧
    (wishFind s.items pid = none →
      (addToWishlist s pid n p img t).2.items = s.items ++ [⟨pid, n, p, img, t⟩] ∧
      (addToWishlist s pid n p img t).2.storage =
        some (Json.arr ((s.items ++ [(⟨pid, n, p, img, t⟩ : WishlistEntry)]).map
          encodeWishlistEntry)) ∧
      (addToWishlist (addToWishlist s pid n p img t).2 pid n2 p2 img2 t2).1 = false ∧
      (addToWishlist (addToWishlist s pid n p img t).2 pid n2 p2 img2 t2).2 =
        (addToWishlist s pid n p img t).2 ∧
      (addToWishlist (addToWishlist s pid n p img t).2 pid n2 p2 img2 t2).2.items.length =
        s.items.length + 1) := by
  refine ⟨?_, ?_, ?_⟩
  · cases hfind : wishFind s.items pid with
    | some e => simp [addToWishlist_found hfind n p img t]
    | none => simp [addToWishlist_absent hfind n p img t]
  · intro hne
    cases hfind : wishFind s.items pid with
    | some e => exact addToWishlist_found hfind n p img t
    | none => exact absurd hfind hne
  · intro hfind
    have h1 := addToWishlist_absent hfind n p img t
    have hitems : (addToWishlist s pid n p img t).2.items =
        s.items ++ [⟨pid, n, p, img, t⟩] := by rw [h1]; rfl
    have hfind2 : wishFind (addToWishlist s pid n p img t).2.items pid =
        some ⟨pid, n, p, img, t⟩ := by
      rw [hitems, wishFind_append_of_none pid hfind]
      simp [wishFind]
    have h2 := addToWishlist_found hfind2 n2 p2 img2 t2
    refine ⟨hitems, by rw [h1]; rfl, by rw [h2], by rw [h2], ?_⟩
    rw [h2, hitems]
    simp

/-- Witness for C3: on the empty wishlist the first add of `p7` appends it
and the second add of `p7` returns false leaving one entry. -/
theorem addToWishlist_spec_witness :
    (addToWishlist wishlistEmpty "p7" "N" 3 "" "t1").2.items =
      wishlistEmpty.items ++ [⟨"p7", "N", 3, "", "t1"⟩] ∧
    (addToWishlist (addToWishlist wishlistEmpty "p7" "N" 3 "" "t1").2
        "p7" "M" 4 "" "t2").1 = false ∧
    (addToWishlist (addToWishlist wishlistEmpty "p7" "N" 3 "" "t1").2
        "p7" "M" 4 "" "t2").2.items.length = wishlistEmpty.items.length + 1 := by
  have h := (addToWishlist_spec wishlistEmpty "p7" "N" "M" 3 4 "" "" "t1" "t2").2.2
    (by decide)
  exact ⟨h.1, h.2.2.1, h.2.2.2.2⟩

/-- C4: when a row with the given id is present, `updateQuantity` with a
nonpositive quantity removes every row with that id — afterwards no such row
exists and the total item count is the sum of the other rows' quantities —
while a positive quantity sets the first matching row's quantity to it and
persists the collection. -/
theorem updateQuantity_spec (s : CartState) (pid : String) (q : ℤ)
    (h : cartFind s.items pid ≠ none) :
    (q ≤ 0 →
      cartFind (updateQuantity s pid q).items pid = none ∧
      (updateQuantity s pid q).items =
        s.items.filter (fun i => i.productId != pid) ∧
      getTotalItems (updateQuantity s pid q) =
        ((s.items.filter (fun i => i.productId != pid)).map
          (fun i => i.quantity)).sum) ∧
    (0 < q →
      cartFind (updateQuantity s pid q).items pid =
        (cartFind s.items pid).map (fun i => { i with quantity := q }) ∧
      (updateQuantity s pid q).storage =
        some (Json.arr ((updateQuantity s pid q).items.map encodeLineItem))) := by
  obtain ⟨i, hfind⟩ : ∃ i, cartFind s.items pid = some i := by
    cases hf : cartFind s.items pid with
    | some i => exact ⟨i, rfl⟩
    | none => exact absurd hf h
  constructor
  · intro hq
    have hitems : (updateQuantity s pid q).items =
        s.items.filter (fun i => i.productId != pid) := by
      rw [updateQuantity_found_nonpos hfind hq, removeFromCart_items]
      exact setQuantityFirst_filter pid q s.items
    refine ⟨?_, hitems, ?_⟩
    · rw [hitems, cartFind_none_iff]
      intro j hj
      have := (List.mem_filter.mp hj).2
      simpa using this
    · unfold getTotalItems
      rw [hitems, foldl_add_map, zero_add]
  · intro hq
    have hq' : ¬ q ≤ 0 := by omega
    constructor
    · rw [updateQuantity_found_pos hfind hq']
      show cartFind (setQuantityFirst s.items pid q) pid = _
      exact cartFind_setQuantityFirst pid q s.items
    · rw [updateQuantity_found_pos hfind hq']
      rfl

/-- Witness for C4 on a two-row cart containing `p1`: quantity 0 removes the
row, quantity 5 rewrites it to 5 and persists. -/
theorem updateQuantity_spec_witness :
    (cartFind (updateQuantity
        { items := [⟨"p1", "A", 2, 3, "", "t1"⟩, ⟨"p2", "B", 1, 1, "", "t2"⟩],
          storage := none } "p1" 0).items "p1" = none ∧
      getTotalItems (updateQuantity
        { items := [⟨"p1", "A", 2, 3, "", "t1"⟩, ⟨"p2", "B", 1, 1, "", "t2"⟩],
          storage := none } "p1" 0) = 1) ∧
    cartFind (updateQuantity
        { items := [⟨"p1", "A", 2, 3, "", "t1"⟩, ⟨"p2", "B", 1, 1, "", "t2"⟩],
          storage := none } "p1" 5).items "p1" =
      some ⟨"p1", "A", 2, 5, "", "t1"⟩ := by
  have h0 := (updateQuantity_spec
    { items := [⟨"p1", "A", 2, 3, "", "t1"⟩, ⟨"p2", "B", 1, 1, "", "t2"⟩],
      storage := none } "p1" 0 (by decide)).1 (by decide)
  have h5 := (updateQuantity_spec
    { items := [⟨"p1", "A", 2, 3, "", "t1"⟩, ⟨"p2", "B", 1, 1, "", "t2"⟩],
      storage := none } "p1" 5 (by decide)).2 (by decide)
  refine ⟨⟨h0.1, ?_⟩, ?_⟩
  · rw [h0.2.2]
    decide
  · rw [h5.1]
    decide

/-- C5: the subtotal equals the sum of price times quantity over the present
rows, the total item count equals the sum of the quantities, and both are 0
on the empty collection. -/
theorem totals_spec (s : CartState) :
    getSubtotal s = (s.items.map (fun i => i.price * (i.quantity : ℚ))).sum ∧
    getTotalItems s = (s.items.map (fun i => i.quantity)).sum ∧
    getSubtotal cartEmpty = 0 ∧ getTotalItems cartEmpty = 0 := by
  refine ⟨?_, ?_, rfl, rfl⟩
  · unfold getSubtotal
    rw [foldl_add_map, zero_add]
  · unfold getTotalItems
    rw [foldl_add_map, zero_add]

/-- C6: persisting a collection and constructing a new instance on the same
key parses back exactly the original ordered item sequence, for the cart and
for the wishlist alike. -/
theorem persistence_roundtrip (c : CartState) (w : WishlistState) :
    loadCart (saveCart c).storage = some c.items ∧
    loadWishlist (saveWishlist w).storage = some w.items := by
  constructor
  · show loadCart (some (Json.arr (c.items.map encodeLineItem))) = some c.items
    simp [loadCart, decodeLineItems_encode]
  · show loadWishlist (some (Json.arr (w.items.map encodeWishlistEntry))) =
      some w.items
    simp [loadWishlist, decodeWishlistEntries_encode]

/-- C7: from the empty cart, add("p1","Widget",9.99,1) then
add("p1","Widget",9.99,2) yields a total item count of 3 and a subtotal of
29.97, with 9.99 and 29.97 denoting the exact decimals 999/100 and 2997/100
(for these concrete values IEEE double arithmetic in the code produces the
same results). -/
theorem scenario_two_adds :
    getTotalItems (addToCart (addToCart cartEmpty "p1" "Widget" (999/100) 1 "" "t1")
        "p1" "Widget" (999/100) 2 "" "t2") = 3 ∧
    getSubtotal (addToCart (addToCart cartEmpty "p1" "Widget" (999/100) 1 "" "t1")
        "p1" "Widget" (999/100) 2 "" "t2") = 2997/100 := by
  have h1 : (addToCart cartEmpty "p1" "Widget" (999/100) 1 "" "t1").items =
      [⟨"p1", "Widget", 999/100, 1, "", "t1"⟩] :=
    addToCart_items_absent (by decide) "Widget" (999/100) 1 "" "t1"
  have hfind : cartFind (addToCart cartEmpty "p1" "Widget" (999/100) 1 "" "t1").items
      "p1" = some ⟨"p1", "Widget", 999/100, 1, "", "t1"⟩ := by
    rw [h1]
    simp [cartFind]
  have h2 : (addToCart (addToCart cartEmpty "p1" "Widget" (999/100) 1 "" "t1")
      "p1" "Widget" (999/100) 2 "" "t2").items =
      [⟨"p1", "Widget", 999/100, 1 + 2, "", "t1"⟩] := by
    rw [addToCart_items_found hfind "Widget" (999/100) 2 "" "t2", h1]
    simp [bumpQuantity]
  constructor
  · unfold getTotalItems
    rw [h2]
    norm_num
  · unfold getSubtotal
    rw [h2]
    norm_num

/-- C8: on a cart without the given id, `addToCart` appends a row whose
quantity is exactly the quantity argument, for every integer value of it —
zero and negative quantities included, no lower bound is enforced — and that
row is then found under the id. -/
theorem addToCart_no_quantity_bound (s : CartState) (pid n : String) (p : ℚ)
    (q : ℤ) (img t : String) (h : cartFind s.items pid = none) :
    (addToCart s pid n p q img t).items = s.items ++ [⟨pid, n, p, q, img, t⟩] ∧
    cartFind (addToCart s pid n p q img t).items pid =
      some ⟨pid, n, p, q, img, t⟩ := by
  have h1 := addToCart_items_absent h n p q img t
  refine ⟨h1, ?_⟩
  rw [h1, cartFind_append_of_none pid h]
  simp [cartFind]

/-- Witness for C8 at quantity -3 on the empty cart: the negative quantity is
stored as given. -/
theorem addToCart_no_quantity_bound_witness :
    (addToCart cartEmpty "p9" "N" 5 (-3) "" "t").items =
      cartEmpty.items ++ [⟨"p9", "N", 5, -3, "", "t"⟩] ∧
    cartFind (addToCart cartEmpty "p9" "N" 5 (-3) "" "t").items "p9" =
      some ⟨"p9", "N", 5, -3, "", "t"⟩ :=
  addToCart_no_quantity_bound cartEmpty "p9" "N" 5 (-3) "" "t" (by decide)

/-- C9: when the id is already present, the cart splits as a prefix without
that id, the first matching row, and a suffix; `addToCart` changes only that
row and only its quantity field — the row's name, price, image and timestamp
and every other row are untouched, whatever name, price and image the call
passes. -/
theorem addToCart_frame (s : CartState) (pid n : String) (p : ℚ) (q : ℤ)
    (img t : String) (i : LineItem) (h : cartFind s.items pid = some i) :
    ∃ l1 l2, s.items = l1 ++ i :: l2 ∧ (∀ j ∈ l1, ¬ j.productId = pid) ∧
      (addToCart s pid n p q img t).items =
        l1 ++ { i with quantity := i.quantity + q } :: l2 := by
  obtain ⟨l1, l2, hs, hl1, hb⟩ := bumpQuantity_decomp pid q s.items i h
  exact ⟨l1, l2, hs, hl1, by rw [addToCart_items_found h n p q img t, hb]⟩

/-- Witness for C9: adding to `b` with a different name, price and image
changes only the quantity of the `b` row of a two-row cart. -/
theorem addToCart_frame_witness :
    ∃ l1 l2, ({ items := [⟨"a", "A", 1, 1, "", "ta"⟩, ⟨"b", "B", 2, 2, "imgB", "tb"⟩], storage := none } : CartState).items =
        l1 ++ (⟨"b", "B", 2, 2, "imgB", "tb"⟩ : LineItem) :: l2 ∧
      (∀ j ∈ l1, ¬ j.productId = "b") ∧
      (addToCart { items := [⟨"a", "A", 1, 1, "", "ta"⟩, ⟨"b", "B", 2, 2, "imgB", "tb"⟩], storage := none } "b" "ZZZ" 7 4 "x" "t2").items =
        l1 ++ (⟨"b", "B", 2, 2 + 4, "imgB", "tb"⟩ : LineItem) :: l2 :=
  addToCart_frame
    { items := [⟨"a", "A", 1, 1, "", "ta"⟩, ⟨"b", "B", 2, 2, "imgB", "tb"⟩],
      storage := none } "b" "ZZZ" 7 4 "x" "t2" ⟨"b", "B", 2, 2, "imgB", "tb"⟩
    (by decide)

/-- C10: `updateQuantity` on an id absent from the cart is a complete no-op
for every quantity: the returned state, in-memory items and storage alike, is
the input state. -/
theorem updateQuantity_absent_noop (s : CartState) (pid : String) (q : ℤ)
    (h : cartFind s.items pid = none) :
    updateQuantity s pid q = s :=
  updateQuantity_of_absent h q

/-- Witness for C10 on a one-row cart and a foreign id. -/
theorem updateQuantity_absent_noop_witness :
    updateQuantity { items := [⟨"a", "A", 1, 1, "", "ta"⟩], storage := none }
        "zzz" 5 =
      { items := [⟨"a", "A", 1, 1, "", "ta"⟩], storage := none } :=
  updateQuantity_absent_noop
    { items := [⟨"a", "A", 1, 1, "", "ta"⟩], storage := none } "zzz" 5 (by decide)
